import Mathlib

/-!
Verification of the CCYOE analytics core (cambi-ccyoe): a shallow embedding of the
backtesting simulation engine (`cambi_analytics/core/backtester.py`), the metric
computations it reports (`cambi_analytics/utils/metrics.py`), and the optimizer's
error-handling and search plumbing (`cambi_analytics/core/optimizer.py`).

Floating-point values are modelled as exact rationals, calendar dates as integers
(day numbers), and the three canonical assets (cmBTC, cmUSD, cmBRL) as a record
with one field per asset.
-/

namespace Cambi

/-- A mapping from the three canonical assets to a rational value.  Used for
portfolios (USD millions), yield rows (basis points), target yields and supply caps. -/
structure AssetMap where
  btc : ℚ
  usd : ℚ
  brl : ℚ
deriving DecidableEq, Repr

/-- Sum of the three per-asset values (Python `sum(d.values())`). -/
def AssetMap.total (m : AssetMap) : ℚ := m.btc + m.usd + m.brl

/-- Pointwise addition of two asset maps. -/
def AssetMap.add (a b : AssetMap) : AssetMap :=
  ⟨a.btc + b.btc, a.usd + b.usd, a.brl + b.brl⟩

/-- `OptimizationConfig` from backtester.py lines 23-72: distribution weights,
rebalancing parameters, per-asset target yields (bp), per-asset supply caps
(USD millions) and cost parameters. -/
structure OptimizationConfig where
  under_supplied_allocation : ℚ
  strategic_growth_allocation : ℚ
  proportional_allocation : ℚ
  treasury_allocation : ℚ
  rebalance_threshold : ℚ
  min_rebalance_interval : ℤ
  target_yields : AssetMap
  supply_caps : AssetMap
  transaction_cost : ℚ
  gas_cost_usd : ℚ
deriving DecidableEq, Repr

/-- `np.isclose(a, b)` with numpy's default tolerances `rtol = 1e-5`, `atol = 1e-8`:
`|a - b| <= atol + rtol * |b|`. -/
def npIsClose (a b : ℚ) : Bool :=
  decide (|a - b| ≤ 1 / 100000000 + (1 / 100000) * |b|)

/-- The validation in `OptimizationConfig.__post_init__` (backtester.py lines 63-72):
the only check performed is that the four allocation weights sum to 1.0 within
`np.isclose` tolerance; on success the configuration is returned unchanged. -/
def postInitCheck (c : OptimizationConfig) : Except String OptimizationConfig :=
  let total_allocation := c.under_supplied_allocation + c.strategic_growth_allocation +
    c.proportional_allocation + c.treasury_allocation
  if npIsClose total_allocation 1 then Except.ok c
  else Except.error "Allocations must sum to 1.0"

/-- Default target yields from `__post_init__` (cmBTC 500bp, cmUSD 1400bp, cmBRL 2000bp). -/
def defaultTargetYields : AssetMap := ⟨500, 1400, 2000⟩

/-- Default supply caps from `__post_init__` (cmBTC $20M, cmUSD $50M, cmBRL $1000M). -/
def defaultSupplyCaps : AssetMap := ⟨20, 50, 1000⟩

/-- The dataclass defaults of `OptimizationConfig` (weights 0.40/0.30/0.20/0.10,
threshold 100bp, interval 1 day, transaction cost 5bp, gas $50). -/
def defaultConfig : OptimizationConfig where
  under_supplied_allocation := 2 / 5
  strategic_growth_allocation := 3 / 10
  proportional_allocation := 1 / 5
  treasury_allocation := 1 / 10
  rebalance_threshold := 100
  min_rebalance_interval := 1
  target_yields := defaultTargetYields
  supply_caps := defaultSupplyCaps
  transaction_cost := 5
  gas_cost_usd := 50

/-- Default initial portfolio in `run_backtest` (cmBTC $10M, cmUSD $25M, cmBRL $40M). -/
def defaultInitialPortfolio : AssetMap := ⟨10, 25, 40⟩

/-- Per-asset excess yields `max(0, yield - target)` from
`_check_rebalance_conditions` (backtester.py lines 276-284). -/
def excessYields (cfg : OptimizationConfig) (y : AssetMap) : AssetMap :=
  ⟨max 0 (y.btc - cfg.target_yields.btc),
   max 0 (y.usd - cfg.target_yields.usd),
   max 0 (y.brl - cfg.target_yields.brl)⟩

/-- `_check_rebalance_conditions` (backtester.py lines 267-295): the trigger fires
iff the summed excess reaches the threshold and, when a previous rebalance date is
recorded, at least `min_rebalance_interval` days have elapsed. -/
def checkRebalanceConditions (cfg : OptimizationConfig) (y : AssetMap)
    (last_rebalance_date : Option ℤ) (current_date : ℤ) : Bool × AssetMap :=
  let ex := excessYields cfg y
  let threshold_met := decide (cfg.rebalance_threshold ≤ ex.total)
  let time_interval_ok :=
    match last_rebalance_date with
    | none => true
    | some d => decide (cfg.min_rebalance_interval ≤ current_date - d)
  (threshold_met && time_interval_ok, ex)

/-- `_calculate_yield_redistribution` (backtester.py lines 343-383), written exactly
as the source's three accumulation passes: the under-supplied bucket is split
between cmBTC and cmUSD when positive; the strategic bucket gives `strategic/3` to
each asset whose utilization `balance / supply_cap / 1e6` exceeds 0.8; the
proportional bucket is split by portfolio weight; the treasury bucket is not
distributed.  The `excess_yields` argument is accepted but unused, as in the source. -/
def calculateYieldRedistribution (cfg : OptimizationConfig) (portfolio : AssetMap)
    (_excess_yields : AssetMap) (total_excess : ℚ) : AssetMap :=
  let under_supplied_amount := total_excess * cfg.under_supplied_allocation
  let strategic_amount := total_excess * cfg.strategic_growth_allocation
  let proportional_amount := total_excess * cfg.proportional_allocation
  let r0 : AssetMap := ⟨0, 0, 0⟩
  let r1 : AssetMap :=
    if under_supplied_amount > 0 then
      ⟨r0.btc + under_supplied_amount / 2, r0.usd + under_supplied_amount / 2, r0.brl⟩
    else r0
  let total_portfolio_value := portfolio.total
  let r2 : AssetMap :=
    ⟨r1.btc + (if portfolio.btc / cfg.supply_caps.btc / 1000000 > 4 / 5 then
        strategic_amount / 3 else 0),
     r1.usd + (if portfolio.usd / cfg.supply_caps.usd / 1000000 > 4 / 5 then
        strategic_amount / 3 else 0),
     r1.brl + (if portfolio.brl / cfg.supply_caps.brl / 1000000 > 4 / 5 then
        strategic_amount / 3 else 0)⟩
  let r3 : AssetMap :=
    ⟨r2.btc + proportional_amount * (portfolio.btc / total_portfolio_value),
     r2.usd + proportional_amount * (portfolio.usd / total_portfolio_value),
     r2.brl + proportional_amount * (portfolio.brl / total_portfolio_value)⟩
  r3

/-- A rebalance event record (`_execute_rebalancing` return value, lines 334-341). -/
structure RebalanceEvent where
  date : ℤ
  total_excess_yield : ℚ
  redistribution : AssetMap
  portfolio_impact : AssetMap
  transaction_cost : ℚ
  gas_cost : ℚ
deriving DecidableEq, Repr

/-- One iteration of the boost loop in `_execute_rebalancing` (lines 321-332):
returns the updated balance, the recorded dollar impact and the transaction cost. -/
def applyBoost (cfg : OptimizationConfig) (balance boost : ℚ) : ℚ × ℚ × ℚ :=
  if boost > 0 then
    let boost_rate := boost / 10000
    let value_increase := balance * boost_rate
    let transaction_cost := value_increase * cfg.transaction_cost / 10000
    (balance + value_increase - transaction_cost, value_increase, transaction_cost)
  else (balance, 0, 0)

/-- `_execute_rebalancing` (backtester.py lines 297-341): a no-op returning the
empty event dict (modelled `none`) when `total_excess <= 0`; otherwise applies the
redistribution boosts and transaction costs to the portfolio and records the event. -/
def executeRebalancing (cfg : OptimizationConfig) (portfolio excess : AssetMap)
    (date : ℤ) : AssetMap × Option RebalanceEvent :=
  let total_excess := excess.total
  if total_excess ≤ 0 then (portfolio, none)
  else
    let redistribution := calculateYieldRedistribution cfg portfolio excess total_excess
    let rb := applyBoost cfg portfolio.btc redistribution.btc
    let ru := applyBoost cfg portfolio.usd redistribution.usd
    let rl := applyBoost cfg portfolio.brl redistribution.brl
    (⟨rb.1, ru.1, rl.1⟩,
     some { date := date
            total_excess_yield := total_excess
            redistribution := redistribution
            portfolio_impact := ⟨rb.2.1, ru.2.1, rl.2.1⟩
            transaction_cost := rb.2.2 + ru.2.2 + rl.2.2
            gas_cost := cfg.gas_cost_usd })

/-- Daily compounding loop (backtester.py lines 255-258):
`balance *= (1 + yield_bp / 10000 / 365)` for each asset. -/
def compoundPortfolio (p y : AssetMap) : AssetMap :=
  ⟨p.btc * (1 + y.btc / 10000 / 365),
   p.usd * (1 + y.usd / 10000 / 365),
   p.brl * (1 + y.brl / 10000 / 365)⟩

/-- The mutable state of `_run_simulation`'s main loop: the portfolio, the last
rebalance date, the appended daily portfolio values, and the appended rebalance
results (`none` standing for the empty dict returned when `total_excess <= 0`). -/
structure SimState where
  portfolio : AssetMap
  last_rebalance_date : Option ℤ
  daily_values : List ℚ
  rebalance_events : List (Option RebalanceEvent)
deriving DecidableEq, Repr

/-- One iteration of `_run_simulation`'s loop (backtester.py lines 222-258), in
source order: check the trigger; if it fires, execute the rebalancing (mutating the
portfolio) and set `last_rebalance_date`; append the day's portfolio value (the sum
of the current, post-rebalance balances); finally compound every balance by its
observed daily yield. -/
def simStep (cfg : OptimizationConfig) (st : SimState) (row : ℤ × AssetMap) : SimState :=
  let check := checkRebalanceConditions cfg row.2 st.last_rebalance_date row.1
  if check.1 then
    let er := executeRebalancing cfg st.portfolio check.2 row.1
    { portfolio := compoundPortfolio er.1 row.2
      last_rebalance_date := some row.1
      daily_values := st.daily_values ++ [er.1.total]
      rebalance_events := st.rebalance_events ++ [er.2] }
  else
    { portfolio := compoundPortfolio st.portfolio row.2
      last_rebalance_date := st.last_rebalance_date
      daily_values := st.daily_values ++ [st.portfolio.total]
      rebalance_events := st.rebalance_events }

/-- `_run_simulation` (backtester.py lines 210-265) over a date-indexed yield series. -/
def runSimulation (cfg : OptimizationConfig) (initial_portfolio : AssetMap)
    (rows : List (ℤ × AssetMap)) : SimState :=
  rows.foldl (simStep cfg)
    { portfolio := initial_portfolio
      last_rebalance_date := none
      daily_values := []
      rebalance_events := [] }

/-- The dated rebalance events of a run: the non-empty event records. -/
def datedEvents (st : SimState) : List RebalanceEvent :=
  st.rebalance_events.filterMap id

/-- `run_backtest`'s empty-range guard (backtester.py lines 181-182) followed by the
simulation: an empty filtered series is a hard error. -/
def runBacktestSim (cfg : OptimizationConfig) (initial_portfolio : AssetMap)
    (rows : List (ℤ × AssetMap)) : Except String SimState :=
  if rows.isEmpty then Except.error "No data available for specified date range"
  else Except.ok (runSimulation cfg initial_portfolio rows)

/-- The portfolio the loop body of `_run_simulation` holds right after the (possible)
rebalance of a period and right before compounding. -/
def portfolioAfterRebalance (cfg : OptimizationConfig) (st : SimState)
    (row : ℤ × AssetMap) : AssetMap :=
  let check := checkRebalanceConditions cfg row.2 st.last_rebalance_date row.1
  if check.1 then (executeRebalancing cfg st.portfolio check.2 row.1).1 else st.portfolio

/-- The under-supplied bucket of `_calculate_yield_redistribution` as a per-asset
closed form: when positive, `total_excess * under_supplied_allocation` is split
evenly between cmBTC and cmUSD. -/
def underSupplCode (cfg : OptimizationConfig) (total_excess : ℚ) : AssetMap :=
  let amt := total_excess * cfg.under_supplied_allocation
  if amt > 0 then ⟨amt / 2, amt / 2, 0⟩ else ⟨0, 0, 0⟩

/-- The strategic-growth bucket as the source actually computes it: an asset is
eligible iff `balance / supply_cap / 1e6 > 0.8`, and each eligible asset receives
`strategic_amount / 3` (one fixed third of the bucket, regardless of how many
assets are eligible). -/
def strategicCode (cfg : OptimizationConfig) (portfolio : AssetMap)
    (total_excess : ℚ) : AssetMap :=
  let amt := total_excess * cfg.strategic_growth_allocation
  ⟨if portfolio.btc / cfg.supply_caps.btc / 1000000 > 4 / 5 then amt / 3 else 0,
   if portfolio.usd / cfg.supply_caps.usd / 1000000 > 4 / 5 then amt / 3 else 0,
   if portfolio.brl / cfg.supply_caps.brl / 1000000 > 4 / 5 then amt / 3 else 0⟩

/-- The proportional bucket: `total_excess * proportional_allocation` split by each
asset's share of pre-rebalance portfolio value. -/
def proportionalCode (cfg : OptimizationConfig) (portfolio : AssetMap)
    (total_excess : ℚ) : AssetMap :=
  let amt := total_excess * cfg.proportional_allocation
  ⟨amt * (portfolio.btc / portfolio.total),
   amt * (portfolio.usd / portfolio.total),
   amt * (portfolio.brl / portfolio.total)⟩

/-- The strategic-growth bucket exactly as claim C2 states it, for comparison with
the source: utilization is `balance / supply_cap` (no further unit conversion), and
every asset with utilization above 0.8 receives an equal share of the bucket — the
bucket amount divided by the number of eligible assets. -/
def strategicClaimC2 (cfg : OptimizationConfig) (portfolio : AssetMap)
    (total_excess : ℚ) : AssetMap :=
  let amt := total_excess * cfg.strategic_growth_allocation
  let eligBtc := portfolio.btc / cfg.supply_caps.btc > 4 / 5
  let eligUsd := portfolio.usd / cfg.supply_caps.usd > 4 / 5
  let eligBrl := portfolio.brl / cfg.supply_caps.brl > 4 / 5
  let n : ℚ := (if eligBtc then 1 else 0) + (if eligUsd then 1 else 0) +
    (if eligBrl then 1 else 0)
  ⟨if eligBtc then amt / n else 0,
   if eligUsd then amt / n else 0,
   if eligBrl then amt / n else 0⟩

/-- The full redistribution as claim C2 describes the algorithm: the source's
under-supplied and proportional buckets with the claim's strategic-growth rule. -/
def redistributionClaimC2 (cfg : OptimizationConfig) (portfolio : AssetMap)
    (total_excess : ℚ) : AssetMap :=
  (underSupplCode cfg total_excess).add
    ((strategicClaimC2 cfg portfolio total_excess).add
      (proportionalCode cfg portfolio total_excess))

/-! ### Metric computations

`_calculate_results` (backtester.py lines 400-418) and
`PerformanceMetrics.max_drawdown` (metrics.py lines 117-125). -/

/-- `(1 + returns).cumprod()` with running product seeded at `w0`. -/
def cumprodFrom (w0 : ℚ) : List ℚ → List ℚ
  | [] => []
  | r :: rest => w0 * (1 + r) :: cumprodFrom (w0 * (1 + r)) rest

/-- Helper for `runningMax`: expanding maximum with an already seen maximum `m`. -/
def runningMaxAux (m : ℚ) : List ℚ → List ℚ
  | [] => []
  | x :: rest => max m x :: runningMaxAux (max m x) rest

/-- `series.expanding().max()`. -/
def runningMax : List ℚ → List ℚ
  | [] => []
  | x :: rest => x :: runningMaxAux x rest

/-- `series.min()`, with 0 for the empty series (metrics.py returns 0 on empty input). -/
def seriesMin : List ℚ → ℚ
  | [] => 0
  | x :: rest => rest.foldl min x

/-- The drawdown series `(cumulative - running_max) / running_max` over cumulative
wealth `(1 + returns).cumprod()` (backtester.py lines 414-416, metrics.py 122-124). -/
def drawdownSeries (returns : List ℚ) : List ℚ :=
  let cumulative := cumprodFrom 1 returns
  let running := runningMax cumulative
  List.zipWith (fun w m => (w - m) / m) cumulative running

/-- The `max_drawdown` value stored into `BacktestResults`
(backtester.py line 417): `drawdown.min()`, with its sign kept. -/
def backtestMaxDrawdown (returns : List ℚ) : ℚ :=
  seriesMin (drawdownSeries returns)

/-- `PerformanceMetrics.max_drawdown` (metrics.py line 125): the same minimum but
wrapped in `abs`. -/
def metricsMaxDrawdown (returns : List ℚ) : ℚ :=
  |backtestMaxDrawdown returns|

/-- The Sharpe ratio as assembled in `_calculate_results` (backtester.py line 411):
`annualized_return / volatility if volatility > 0 else 0`. -/
def backtestSharpe (annualized_return volatility : ℚ) : ℚ :=
  if volatility > 0 then annualized_return / volatility else 0

/-- The Calmar ratio as assembled in `_calculate_results` (backtester.py line 418):
`annualized_return / abs(max_drawdown) if max_drawdown != 0 else 0`. -/
def backtestCalmar (annualized_return max_drawdown : ℚ) : ℚ :=
  if max_drawdown ≠ 0 then annualized_return / |max_drawdown| else 0

/-! ### Heap model for the simulation's portfolio dict

`_run_simulation` line 214 does `current_portfolio = deepcopy(initial_portfolio)`
and thereafter mutates only `current_portfolio` in place.  To state the framing
property we model the Python dicts as heap cells: addresses are indices, `deepcopy`
allocates a fresh cell initialized with the source cell's contents, and each loop
iteration writes the updated portfolio back to the engine's own cell. -/

/-- A heap of portfolio dicts, addressed by index. -/
structure Heap where
  cells : List AssetMap
deriving DecidableEq, Repr

/-- Read the dict stored at address `a`. -/
def Heap.read (h : Heap) (a : Nat) : AssetMap := h.cells.getD a ⟨0, 0, 0⟩

/-- Overwrite the dict stored at address `a` in place. -/
def Heap.write (h : Heap) (a : Nat) (v : AssetMap) : Heap := ⟨h.cells.set a v⟩

/-- Allocate a fresh dict (the effect of `deepcopy`): a new address holding `v`. -/
def Heap.alloc (h : Heap) (v : AssetMap) : Heap × Nat :=
  (⟨h.cells ++ [v]⟩, h.cells.length)

/-- One loop iteration of `_run_simulation` acting through the heap: the engine
reads its own cell `cur`, runs the period, and writes the mutated portfolio back
to `cur`. -/
def heapSimStep (cfg : OptimizationConfig) (cur : Nat) (acc : Heap × SimState)
    (row : ℤ × AssetMap) : Heap × SimState :=
  let st := simStep cfg { acc.2 with portfolio := acc.1.read cur } row
  (acc.1.write cur st.portfolio, st)

/-- `_run_simulation` with the caller's `initial_portfolio` living at heap address
`callerAddr`: line 214's `deepcopy` allocates a fresh cell from it, and the whole
loop mutates only that fresh cell. -/
def runSimulationHeap (cfg : OptimizationConfig) (h0 : Heap) (callerAddr : Nat)
    (rows : List (ℤ × AssetMap)) : Heap × SimState :=
  let al := h0.alloc (h0.read callerAddr)
  rows.foldl (heapSimStep cfg al.2)
    (al.1,
     { portfolio := al.1.read al.2
       last_rebalance_date := none
       daily_values := []
       rebalance_events := [] })

/-! ### Optimizer (`cambi_analytics/core/optimizer.py`) -/

/-- An objective value: a finite float or the `float(inf)` sentinel returned for
failed evaluations. -/
inductive ObjValue
  | fin (val : ℚ)
  | posInf
deriving DecidableEq, Repr

/-- Python float `<` restricted to these values: `inf < inf` is false. -/
def ObjValue.ltB : ObjValue → ObjValue → Bool
  | ObjValue.fin a, ObjValue.fin b => decide (a < b)
  | ObjValue.fin _, ObjValue.posInf => true
  | ObjValue.posInf, _ => false

/-- `value + q` for a rational `q` (used by the genetic penalty wrapper). -/
def ObjValue.addQ : ObjValue → ℚ → ObjValue
  | ObjValue.fin v, q => ObjValue.fin (v + q)
  | ObjValue.posInf, _ => ObjValue.posInf

/-- `-value if value != inf else value` (result packaging, optimizer.py line 454). -/
def ObjValue.negIfFin : ObjValue → ObjValue
  | ObjValue.fin v => ObjValue.fin (-v)
  | ObjValue.posInf => ObjValue.posInf

/-- `_params_to_config` (optimizer.py lines 355-376): the first four entries set the
allocation weights, the fifth the rebalance threshold, the sixth the transaction
cost; anything missing is left at the base configuration's value. -/
def paramsToConfig (params : List ℚ) (base : OptimizationConfig) : OptimizationConfig :=
  let c1 := if params.length ≥ 4 then
      { base with
        under_supplied_allocation := params.getD 0 0
        strategic_growth_allocation := params.getD 1 0
        proportional_allocation := params.getD 2 0
        treasury_allocation := params.getD 3 0 }
    else base
  let c2 := if params.length ≥ 5 then { c1 with rebalance_threshold := params.getD 4 0 } else c1
  if params.length ≥ 6 then { c2 with transaction_cost := params.getD 5 0 } else c2

/-- The closure built by `_create_objective_function` (optimizer.py lines 315-353):
the candidate's backtest is run; a raised exception or a missing result attribute
becomes `float(inf)`, never an exception escaping to the search loop; a successful
evaluation is the extracted attribute, negated when the objective is a
maximization one. -/
def objectiveFunction {R : Type} (runBT : List ℚ → Except String R)
    (getAttr : R → Option ℚ) (negateForMin : Bool) (params : List ℚ) : ObjValue :=
  match runBT params with
  | Except.error _ => ObjValue.posInf
  | Except.ok results =>
    match getAttr results with
    | none => ObjValue.posInf
    | some value => ObjValue.fin (if negateForMin then -value else value)

/-- The outcome of one scipy minimize/search call: solution vector, objective value
and reported success flag. -/
structure ScipyResult where
  x : List ℚ
  fv : ObjValue
  success : Bool
deriving DecidableEq, Repr

/-- The best-result accumulation in `_optimize_scipy` (optimizer.py lines 402-435):
a method attempt either raised (`none`, caught and skipped) or produced a result,
kept only when its objective value is strictly below the best so far, which starts
at `float(inf)`. -/
def pickStep (acc : Option ScipyResult × ObjValue) (attempt : Option ScipyResult) :
    Option ScipyResult × ObjValue :=
  match attempt with
  | none => acc
  | some r => if ObjValue.ltB r.fv acc.2 then (some r, r.fv) else acc

/-- Fold of `pickStep` over all method attempts, starting from no result and an
infinitely bad best value. -/
def pickBest (attempts : List (Option ScipyResult)) : Option ScipyResult × ObjValue :=
  attempts.foldl pickStep (none, ObjValue.posInf)

/-- `_optimize_scipy`'s final dispatch (optimizer.py lines 437-438): when no method
attempt was kept, a `RuntimeError` is raised instead of returning any default. -/
def optimizeScipy (attempts : List (Option ScipyResult)) : Except String ScipyResult :=
  match (pickBest attempts).1 with
  | none => Except.error "All optimization methods failed"
  | some r => Except.ok r

/-- A scipy-style constraint: kind (`eq` or `ineq`) plus the constraint function. -/
inductive ConstraintType
  | eqc
  | ineqc
deriving DecidableEq, Repr

/-- A constraint dict as built by `_setup_constraints`. -/
structure Constraint where
  ctype : ConstraintType
  cfun : List ℚ → ℚ

/-- The penalty wrapper of `_optimize_genetic` (optimizer.py lines 470-482):
`penalty = 1000 * violation^2` for each violated constraint, added to the objective. -/
def penalizedObjective (constraints : List Constraint) (obj : List ℚ → ObjValue)
    (params : List ℚ) : ObjValue :=
  let penalty := constraints.foldl
    (fun acc c =>
      match c.ctype with
      | ConstraintType.eqc => acc + 1000 * |c.cfun params| ^ 2
      | ConstraintType.ineqc => acc + 1000 * (max 0 (-(c.cfun params))) ^ 2)
    0
  (obj params).addQ penalty

/-- Modelled from the spec (section 5: random-number use is seeded explicitly for
reproducibility; unseeded runs are non-deterministic): scipy's stochastic searches
(`differential_evolution`, `basinhopping`) draw all their randomness from a
RandomState derived from the `seed` argument, falling back to the ambient global
RNG state when no seed is passed.  The search itself is opaque and is modelled as
an unspecified deterministic computation of the objective, the bounds, the
iteration budget and the effective seed. -/
def searchKernel (obj : List ℚ → ObjValue) (bounds : List (ℚ × ℚ)) (_niter : Nat)
    (effSeed : Nat) : ScipyResult :=
  let x := bounds.map (fun b => b.1 + (b.2 - b.1) * (((effSeed % 97 : Nat) : ℚ) / 97))
  { x := x, fv := obj x, success := true }

/-- `scipy.optimize.differential_evolution(..., seed, maxiter=300, ...)` under the
seeding model of `searchKernel`; `globalRng` is the ambient RNG state consulted
only when `seed` is `none`. -/
def differentialEvolution (obj : List ℚ → ObjValue) (bounds : List (ℚ × ℚ))
    (seed : Option Nat) (globalRng : Nat) : ScipyResult :=
  searchKernel obj bounds 300 (match seed with | some s => s | none => globalRng)

/-- `scipy.optimize.basinhopping(..., niter=100, seed, ...)` under the same model. -/
def basinhoppingRun (obj : List ℚ → ObjValue) (bounds : List (ℚ × ℚ))
    (seed : Option Nat) (globalRng : Nat) : ScipyResult :=
  searchKernel obj bounds 100 (match seed with | some s => s | none => globalRng)

/-- The fields of `OptimizationResult` relevant here (optimizer.py lines 32-43). -/
structure OptimizationResult where
  optimal_params : List ℚ
  optimal_value : ObjValue
  optimization_method : String
  convergence_status : String
deriving DecidableEq, Repr

/-- Result packaging shared by the strategies (optimizer.py lines 505-512, 552-559). -/
def packageResult (methodName : String) (r : ScipyResult) : OptimizationResult :=
  { optimal_params := r.x
    optimal_value := r.fv.negIfFin
    optimization_method := methodName
    convergence_status := if r.success then "success" else "failed" }

/-- `_optimize_genetic` (optimizer.py lines 461-512): differential evolution over
the penalized objective, with the literal `seed=42` (line 487). -/
def optimizeGenetic (constraints : List Constraint) (obj : List ℚ → ObjValue)
    (bounds : List (ℚ × ℚ)) (globalRng : Nat) : OptimizationResult :=
  packageResult "genetic"
    (differentialEvolution (penalizedObjective constraints obj) bounds (some 42) globalRng)

/-- `_optimize_basinhopping` (optimizer.py lines 514-559): basin hopping over the
raw objective, with the literal `seed=42` (line 537). -/
def optimizeBasinhopping (obj : List ℚ → ObjValue) (bounds : List (ℚ × ℚ))
    (globalRng : Nat) : OptimizationResult :=
  packageResult "basinhopping" (basinhoppingRun obj bounds (some 42) globalRng)

/-- A concrete failing backtest closure: any parameter vector is mapped to a
configuration and run on an empty date range, which `run_backtest` rejects. -/
def emptyRangeBacktest : List ℚ → Except String SimState := fun params =>
  runBacktestSim (paramsToConfig params defaultConfig) defaultInitialPortfolio []

/-- Induction invariant for the inter-rebalance spacing property: the dated
rebalance events of the state are pairwise separated by at least
`min_rebalance_interval` days (later minus earlier), and every recorded event is
dated no later than the stored `last_rebalance_date`. -/
def rebalanceInvariant (cfg : OptimizationConfig) (st : SimState) : Prop :=
  List.Pairwise (fun e1 e2 : RebalanceEvent =>
    cfg.min_rebalance_interval ≤ e2.date - e1.date) (datedEvents st) ∧
  ∀ e ∈ datedEvents st, ∃ d, st.last_rebalance_date = some d ∧ e.date ≤ d

/-! ## Theorems -/

/-- Two asset maps with equal components are equal. -/
theorem AssetMap.ext_fields {a b : AssetMap} (h1 : a.btc = b.btc) (h2 : a.usd = b.usd)
    (h3 : a.brl = b.brl) : a = b := by
  cases a; cases b; simp_all

/-- The trigger bit of `_check_rebalance_conditions`, as a logical statement. -/
theorem check_fst_iff (cfg : OptimizationConfig) (y : AssetMap) (last : Option ℤ)
    (t : ℤ) :
    (checkRebalanceConditions cfg y last t).1 = true ↔
      (cfg.rebalance_threshold ≤
          max 0 (y.btc - cfg.target_yields.btc) + max 0 (y.usd - cfg.target_yields.usd) +
            max 0 (y.brl - cfg.target_yields.brl) ∧
        (last = none ∨ ∃ d, last = some d ∧ cfg.min_rebalance_interval ≤ t - d)) := by
  cases last <;> simp [checkRebalanceConditions, excessYields, AssetMap.total]

/-- A non-empty rebalance record carries the date it was executed on. -/
theorem executeRebalancing_date (cfg : OptimizationConfig) (p ex : AssetMap) (t : ℤ)
    (ev : RebalanceEvent) (h : (executeRebalancing cfg p ex t).2 = some ev) :
    ev.date = t := by
  by_cases hle : ex.total ≤ 0
  · simp [executeRebalancing, hle] at h
  · simp [executeRebalancing, hle] at h
    rw [← h]

/-- C1: the claim says the per-asset redistribution amounts plus the treasury
amount sum to `total_excess`.  Evaluating `_calculate_yield_redistribution` at the
default configuration and default portfolio with 500bp of total excess yields only
300bp of per-asset amounts; with the 50bp treasury amount that is 350bp, not
500bp — the 150bp strategic-growth bucket silently vanishes because no asset
passes the `balance / supply_cap / 1e6 > 0.8` test and each eligible asset would
only get a fixed third of the bucket anyway. -/
theorem c1_redistribution_not_conserved :
    (calculateYieldRedistribution defaultConfig defaultInitialPortfolio
          ⟨0, 500, 0⟩ 500).total + 500 * defaultConfig.treasury_allocation = 350 ∧
      (350 : ℚ) ≠ 500 := by
  refine ⟨?_, by norm_num⟩
  norm_num [calculateYieldRedistribution, AssetMap.total, defaultConfig,
    defaultInitialPortfolio, defaultSupplyCaps, defaultTargetYields]

/-- C2 counterexample: at the default configuration, a portfolio holding $19M of
cmBTC against its $20M supply cap has utilization 0.95 by the claim's rule
(`balance / supply_cap`), so the claim predicts cmBTC receives the whole
strategic-growth bucket; the source's extra `/ 1e6` makes no asset eligible, so
the computed redistribution differs from the claim's. -/
theorem c2_counterexample :
    redistributionClaimC2 defaultConfig ⟨19, 25, 40⟩ 500 ≠
      calculateYieldRedistribution defaultConfig ⟨19, 25, 40⟩ ⟨0, 500, 0⟩ 500 := by
  intro h
  have hbtc := congrArg AssetMap.btc h
  norm_num [redistributionClaimC2, underSupplCode, strategicClaimC2, proportionalCode,
    calculateYieldRedistribution, AssetMap.add, AssetMap.total, defaultConfig,
    defaultSupplyCaps] at hbtc

/-- C2 amended: the strategic-growth bucket amount is
`total_excess * strategic_growth_allocation`, but eligibility is utilization
`balance / supply_cap / 1e6 > 0.8` (with the source's extra unit division), and
each eligible asset receives a fixed third of the bucket
(`strategic_amount / 3`), irrespective of how many assets are eligible; the
under-supplied and proportional buckets are as claimed.  Stated as a
decomposition of `_calculate_yield_redistribution` into the three bucket
functions. -/
theorem c2_bucket_decomposition (cfg : OptimizationConfig) (portfolio ex : AssetMap)
    (total_excess : ℚ) :
    calculateYieldRedistribution cfg portfolio ex total_excess =
      (underSupplCode cfg total_excess).add
        ((strategicCode cfg portfolio total_excess).add
          (proportionalCode cfg portfolio total_excess)) := by
  apply AssetMap.ext_fields <;>
  · simp only [calculateYieldRedistribution, underSupplCode, strategicCode,
      proportionalCode, AssetMap.add, AssetMap.total]
    by_cases hA : total_excess * cfg.under_supplied_allocation > 0 <;>
      simp only [hA, if_true, if_false, ite_true, ite_false] <;>
        split_ifs <;> ring

/-- C3: in each simulation period, a rebalance record is appended iff the summed
per-asset excess `max(0, yield - target)` reaches the rebalance threshold and
either no rebalance has happened yet or at least `min_rebalance_interval` days
have elapsed since the last rebalance date. -/
theorem c3_trigger_iff (cfg : OptimizationConfig) (st : SimState) (t : ℤ)
    (y : AssetMap) :
    (simStep cfg st (t, y)).rebalance_events.length =
        st.rebalance_events.length + 1 ↔
      (cfg.rebalance_threshold ≤
          max 0 (y.btc - cfg.target_yields.btc) + max 0 (y.usd - cfg.target_yields.usd) +
            max 0 (y.brl - cfg.target_yields.brl) ∧
        (st.last_rebalance_date = none ∨
          ∃ d, st.last_rebalance_date = some d ∧ cfg.min_rebalance_interval ≤ t - d)) := by
  rw [← check_fst_iff cfg y st.last_rebalance_date t]
  by_cases hb : (checkRebalanceConditions cfg y st.last_rebalance_date t).1 = true <;>
    simp [simStep, hb]

/-- C5 counterexample: a configuration with a negative rebalance threshold (and
weights summing to 1) passes `__post_init__` validation untouched, so construction
does not fail fast on non-positive bounds. -/
theorem c5_counterexample :
    ({ defaultConfig with rebalance_threshold := -5 }).rebalance_threshold ≤ 0 ∧
    postInitCheck { defaultConfig with rebalance_threshold := -5 } =
      Except.ok { defaultConfig with rebalance_threshold := -5 } := by
  constructor
  · norm_num [defaultConfig]
  · norm_num [postInitCheck, npIsClose, defaultConfig]

/-- C5 amended: `OptimizationConfig.__post_init__` fails iff the four allocation
weights do not sum to 1.0 within `np.isclose` tolerance (`1e-8 + 1e-5`); a
configuration that passes is returned unchanged (never silently corrected), and
the only other outcome is the weight-sum error — no bound such as the rebalance
threshold is ever checked. -/
theorem c5_validation_characterization (c : OptimizationConfig) :
    (postInitCheck c = Except.ok c ↔
      |c.under_supplied_allocation + c.strategic_growth_allocation +
          c.proportional_allocation + c.treasury_allocation - 1| ≤
        1 / 100000000 + 1 / 100000) ∧
    (postInitCheck c = Except.ok c ∨
      postInitCheck c = Except.error "Allocations must sum to 1.0") := by
  have hcond : npIsClose (c.under_supplied_allocation + c.strategic_growth_allocation +
      c.proportional_allocation + c.treasury_allocation) 1 = true ↔
      |c.under_supplied_allocation + c.strategic_growth_allocation +
          c.proportional_allocation + c.treasury_allocation - 1| ≤
        1 / 100000000 + 1 / 100000 := by
    simp [npIsClose]
  by_cases hb : npIsClose (c.under_supplied_allocation + c.strategic_growth_allocation +
      c.proportional_allocation + c.treasury_allocation) 1 = true
  · have hok : postInitCheck c = Except.ok c := by
      simp only [postInitCheck]
      rw [if_pos hb]
    exact ⟨⟨fun _ => hcond.mp hb, fun _ => hok⟩, Or.inl hok⟩
  · have herr : postInitCheck c = Except.error "Allocations must sum to 1.0" := by
      simp only [postInitCheck]
      rw [if_neg hb]
    refine ⟨⟨fun hok => ?_, fun hineq => absurd (hcond.mpr hineq) hb⟩, Or.inr herr⟩
    rw [herr] at hok
    simp at hok

/-- C6: the claim (and the repository's own test suite) requires the reported max
drawdown to lie in [0, 1], but `_calculate_results` stores `drawdown.min()`
without taking the absolute value: on the return series [0.1, -0.05] the stored
value is -1/20, which is negative.  The metrics-library variant with `abs` does
lie in [0, 1] at the same input, and the Sharpe and Calmar ratios are 0 at zero
denominators as claimed. -/
theorem c6_reported_drawdown_sign :
    backtestMaxDrawdown [1 / 10, -1 / 20] = -1 / 20 ∧
    ¬(0 ≤ backtestMaxDrawdown [1 / 10, -1 / 20]) ∧
    metricsMaxDrawdown [1 / 10, -1 / 20] = 1 / 20 ∧
    backtestSharpe 1 0 = 0 ∧ backtestCalmar 1 0 = 0 := by
  refine ⟨?_, ?_, ?_, ?_, ?_⟩ <;>
    norm_num [backtestMaxDrawdown, metricsMaxDrawdown, drawdownSeries, cumprodFrom,
      runningMax, runningMaxAux, seriesMin, backtestSharpe, backtestCalmar, max_def,
      min_def]

/-- C8 counterexample: on a one-day series with yields exactly at target (so no
rebalance), the value appended to the daily series is 75 — the sum of the
PRE-compounding balances — while the post-compounding balances sum to
75 + 12/365, so the appended value is not the sum of post-compounding balances. -/
theorem c8_counterexample :
    (runSimulation defaultConfig defaultInitialPortfolio
        [(0, ⟨500, 1400, 2000⟩)]).daily_values = [75] ∧
    ((runSimulation defaultConfig defaultInitialPortfolio
        [(0, ⟨500, 1400, 2000⟩)]).portfolio).total ≠ 75 := by
  constructor <;>
    norm_num [runSimulation, simStep, checkRebalanceConditions, excessYields,
      compoundPortfolio, AssetMap.total, defaultConfig, defaultTargetYields,
      defaultInitialPortfolio, max_def]

/-- C8 amended: per period the loop evaluates the trigger, redistributes if
triggered, appends the day's total portfolio value computed from the
post-rebalance, PRE-compounding balances, and only then compounds every balance
by `(1 + yield_bp/10000/365)`. -/
theorem c8_step_order (cfg : OptimizationConfig) (st : SimState) (row : ℤ × AssetMap) :
    (simStep cfg st row).daily_values =
        st.daily_values ++ [(portfolioAfterRebalance cfg st row).total] ∧
    (simStep cfg st row).portfolio =
        compoundPortfolio (portfolioAfterRebalance cfg st row) row.2 := by
  by_cases hb : (checkRebalanceConditions cfg row.2 st.last_rebalance_date row.1).1 = true <;>
    constructor <;> simp [simStep, portfolioAfterRebalance, hb]

/-- One simulation step preserves the rebalance-spacing invariant when the
configured interval is non-negative. -/
theorem simStep_preserves_invariant (cfg : OptimizationConfig)
    (hI : 0 ≤ cfg.min_rebalance_interval) (st : SimState) (row : ℤ × AssetMap)
    (h : rebalanceInvariant cfg st) : rebalanceInvariant cfg (simStep cfg st row) := by
  by_cases hb : (checkRebalanceConditions cfg row.2 st.last_rebalance_date row.1).1 = true
  · obtain ⟨-, hlast⟩ := (check_fst_iff cfg row.2 st.last_rebalance_date row.1).mp hb
    have hgap : ∀ e ∈ datedEvents st, cfg.min_rebalance_interval ≤ row.1 - e.date := by
      intro e he
      obtain ⟨d, hd, hle⟩ := h.2 e he
      rcases hlast with hnone | ⟨d', hd', hint⟩
      · rw [hnone] at hd
        exact absurd hd (by simp)
      · rw [hd'] at hd
        have hdd : d' = d := by injection hd
        subst hdd
        omega
    have hbound : ∀ e ∈ datedEvents st, e.date ≤ row.1 := by
      intro e he
      have := hgap e he
      omega
    have hlastnew : (simStep cfg st row).last_rebalance_date = some row.1 := by
      simp [simStep, hb]
    rcases hev : (executeRebalancing cfg st.portfolio
        (checkRebalanceConditions cfg row.2 st.last_rebalance_date row.1).2 row.1).2
      with _ | ev
    · have hdd : datedEvents (simStep cfg st row) = datedEvents st := by
        simp [simStep, hb, datedEvents, hev, List.filterMap_append]
      constructor
      · rw [hdd]
        exact h.1
      · intro e he
        rw [hdd] at he
        exact ⟨row.1, hlastnew, hbound e he⟩
    · have hdate : ev.date = row.1 :=
        executeRebalancing_date cfg st.portfolio _ row.1 ev hev
      have hdd : datedEvents (simStep cfg st row) = datedEvents st ++ [ev] := by
        simp [simStep, hb, datedEvents, hev, List.filterMap_append]
      constructor
      · rw [hdd, List.pairwise_append]
        refine ⟨h.1, by simp, ?_⟩
        intro e1 he1 e2 he2
        rw [List.mem_singleton] at he2
        subst he2
        rw [hdate]
        exact hgap e1 he1
      · intro e he
        rw [hdd, List.mem_append] at he
        rcases he with he | he
        · exact ⟨row.1, hlastnew, hbound e he⟩
        · rw [List.mem_singleton] at he
          subst he
          exact ⟨row.1, hlastnew, le_of_eq hdate⟩
  · have hdd : datedEvents (simStep cfg st row) = datedEvents st := by
      simp [simStep, hb, datedEvents]
    have hlastnew : (simStep cfg st row).last_rebalance_date = st.last_rebalance_date := by
      simp [simStep, hb]
    constructor
    · rw [hdd]
      exact h.1
    · intro e he
      rw [hdd] at he
      obtain ⟨d, hd, hle⟩ := h.2 e he
      exact ⟨d, by rw [hlastnew, hd], hle⟩

/-- C4: over any input series and any configuration with a non-negative minimum
interval, the dated rebalance events of one simulation run are pairwise at least
`min_rebalance_interval` days apart (every later event minus every earlier one),
so no two recorded rebalances are dated fewer than the interval apart. -/
theorem c4_no_close_rebalances (cfg : OptimizationConfig)
    (initial_portfolio : AssetMap) (rows : List (ℤ × AssetMap))
    (hI : 0 ≤ cfg.min_rebalance_interval) :
    List.Pairwise (fun e1 e2 : RebalanceEvent =>
        cfg.min_rebalance_interval ≤ e2.date - e1.date)
      (datedEvents (runSimulation cfg initial_portfolio rows)) := by
  have main : ∀ st : SimState, rebalanceInvariant cfg st →
      rebalanceInvariant cfg (rows.foldl (simStep cfg) st) := by
    induction rows with
    | nil => exact fun st h => h
    | cons r rs ih =>
      intro st h
      exact ih (simStep cfg st r) (simStep_preserves_invariant cfg hI st r h)
  exact (main
    { portfolio := initial_portfolio
      last_rebalance_date := none
      daily_values := []
      rebalance_events := [] }
    ⟨by simp [datedEvents], by simp [datedEvents]⟩).1

/-- C4 witness: the default configuration (interval 1 day) on a two-day series
with 100bp of excess both days records two rebalances, one day apart. -/
theorem c4_witness :
    (0 : ℤ) ≤ defaultConfig.min_rebalance_interval ∧
    List.Pairwise (fun e1 e2 : RebalanceEvent =>
        defaultConfig.min_rebalance_interval ≤ e2.date - e1.date)
      (datedEvents (runSimulation defaultConfig defaultInitialPortfolio
        [(0, ⟨600, 1400, 2000⟩), (1, ⟨600, 1400, 2000⟩)])) :=
  ⟨by norm_num [defaultConfig],
   c4_no_close_rebalances defaultConfig defaultInitialPortfolio
     [(0, ⟨600, 1400, 2000⟩), (1, ⟨600, 1400, 2000⟩)] (by norm_num [defaultConfig])⟩

/-- Folding `pickStep` over attempts that are all `none` keeps the accumulator. -/
theorem pickBest_all_none :
    ∀ (l : List (Option ScipyResult)), (∀ o ∈ l, o = none) →
      ∀ acc, l.foldl pickStep acc = acc := by
  intro l
  induction l with
  | nil => exact fun _ _ => rfl
  | cons o tl ih =>
    intro h acc
    have ho : o = none := h o (List.mem_cons_self o tl)
    rw [List.foldl_cons, ho]
    exact ih (fun x hx => h x (List.mem_cons_of_mem o hx)) acc

/-- C7: a candidate whose backtest raises is scored `float(inf)` by the objective
closure — the exception never escapes, the closure totally returns a value — and
when no search method produced any result, `_optimize_scipy` raises the
`RuntimeError` instead of returning a default. -/
theorem c7_error_isolation {R : Type} (runBT : List ℚ → Except String R)
    (getAttr : R → Option ℚ) (negateForMin : Bool) (params : List ℚ) (e : String)
    (attempts : List (Option ScipyResult))
    (hfail : runBT params = Except.error e)
    (hnores : ∀ o ∈ attempts, o = none) :
    objectiveFunction runBT getAttr negateForMin params = ObjValue.posInf ∧
    optimizeScipy attempts = Except.error "All optimization methods failed" := by
  constructor
  · unfold objectiveFunction
    rw [hfail]
  · unfold optimizeScipy pickBest
    rw [pickBest_all_none attempts hnores]

/-- C7 witness: a backtest over an empty date range fails, the objective closure
maps it to `float(inf)`, and two raised method attempts make `_optimize_scipy`
report the fatal error. -/
theorem c7_witness :
    emptyRangeBacktest [1] = Except.error "No data available for specified date range" ∧
    objectiveFunction emptyRangeBacktest (fun st => some st.portfolio.total) true [1] =
      ObjValue.posInf ∧
    optimizeScipy [none, none] = Except.error "All optimization methods failed" := by
  have h := c7_error_isolation emptyRangeBacktest (fun st => some st.portfolio.total)
    true [1] "No data available for specified date range" [none, none] rfl (by decide)
  exact ⟨rfl, h.1, h.2⟩

/-- Writing one heap cell leaves every other cell's contents unchanged. -/
theorem getD_set_ne (v d : AssetMap) :
    ∀ (l : List AssetMap) (i j : Nat), i ≠ j → (l.set i v).getD j d = l.getD j d := by
  intro l
  induction l with
  | nil => intro i j _; rfl
  | cons a tl ih =>
    intro i j hne
    cases i with
    | zero =>
      cases j with
      | zero => exact absurd rfl hne
      | succ j' => simp
    | succ i' =>
      cases j with
      | zero => simp
      | succ j' => simpa using ih i' j' (by omega)

/-- The heap-threaded simulation loop never touches any address other than the
engine's own cell `cur`. -/
theorem heapFold_read (cfg : OptimizationConfig) (cur a : Nat) (hne : cur ≠ a) :
    ∀ (rows : List (ℤ × AssetMap)) (h : Heap) (st : SimState),
      ((rows.foldl (heapSimStep cfg cur) (h, st)).1).read a = h.read a := by
  intro rows
  induction rows with
  | nil => exact fun _ _ => rfl
  | cons r rs ih =>
    intro h st
    have hone : (heapSimStep cfg cur (h, st) r).1.read a = h.read a := by
      simp only [heapSimStep, Heap.write, Heap.read]
      exact getD_set_ne _ _ _ _ _ hne
    rw [List.foldl_cons]
    exact ((ih (heapSimStep cfg cur (h, st) r).1 (heapSimStep cfg cur (h, st) r).2).trans hone)

/-- C9: the caller-supplied `initial_portfolio` dict is unchanged by
`_run_simulation`: line 214's `deepcopy` allocates a fresh cell and the whole loop
mutates only that fresh cell, so the caller's address reads back its original
contents after the run. -/
theorem c9_caller_portfolio_unchanged (cfg : OptimizationConfig) (h0 : Heap) (a : Nat)
    (rows : List (ℤ × AssetMap)) (ha : a < h0.cells.length) :
    ((runSimulationHeap cfg h0 a rows).1).read a = h0.read a := by
  have hne : h0.cells.length ≠ a := by omega
  have hfold := heapFold_read cfg h0.cells.length a hne rows
    ⟨h0.cells ++ [h0.read a]⟩
    { portfolio := (⟨h0.cells ++ [h0.read a]⟩ : Heap).read h0.cells.length
      last_rebalance_date := none
      daily_values := []
      rebalance_events := [] }
  have hstep : ((runSimulationHeap cfg h0 a rows).1).read a =
      (⟨h0.cells ++ [h0.read a]⟩ : Heap).read a := hfold
  rw [hstep]
  simp only [Heap.read]
  exact List.getD_append _ _ _ _ ha

/-- C9 witness: a one-cell heap holding the caller's portfolio reads back
unchanged after a one-day simulated run. -/
theorem c9_witness :
    0 < (Heap.mk [⟨1, 2, 3⟩]).cells.length ∧
    ((runSimulationHeap defaultConfig (Heap.mk [⟨1, 2, 3⟩]) 0
        [(0, ⟨600, 1400, 2000⟩)]).1).read 0 = (Heap.mk [⟨1, 2, 3⟩]).read 0 :=
  ⟨by decide,
   c9_caller_portfolio_unchanged defaultConfig (Heap.mk [⟨1, 2, 3⟩]) 0
     [(0, ⟨600, 1400, 2000⟩)] (by decide)⟩

/-- C10: `_optimize_genetic` and `_optimize_basinhopping` pass the literal
`seed=42` to scipy, so under the seeded-RNG model of `searchKernel` their results
do not depend on the ambient global RNG state: two runs on identical constraints,
objective and bounds produce identical `OptimizationResult` values. -/
theorem c10_seed42_deterministic (constraints : List Constraint)
    (obj : List ℚ → ObjValue) (bounds : List (ℚ × ℚ)) (g1 g2 : Nat) :
    optimizeGenetic constraints obj bounds g1 = optimizeGenetic constraints obj bounds g2 ∧
    optimizeBasinhopping obj bounds g1 = optimizeBasinhopping obj bounds g2 :=
  ⟨rfl, rfl⟩

end Cambi

